import Mathlib

/-!
Shallow embedding of the core logic of `src/App.js` (divein4e-website):
the secret-garden access gate (`SecretGardenLock`), the navigation
controller (`handleNavigation` / `handleSecretUnlock` / the header's
secret-garden button), the suggestion-form validator (`validateForm`),
and the translation lookup (`t` in `I18nProvider`).

JavaScript strings are modelled as Lean `String`; the JS helpers the
code relies on (`String.prototype.trim`, `String.prototype.split('.')`,
the regex `/\S+@\S+\.\S+/`) are embedded below over `List Char` so that
everything is kernel-computable.
-/

namespace DiveIn4e

/-- The set of characters JavaScript treats as whitespace (`\s` in a
regex, and the characters removed by `String.prototype.trim`). -/
def jsWhitespace (c : Char) : Bool :=
  (9 ≤ c.toNat && c.toNat ≤ 13) || c.toNat = 32 || c.toNat = 0xa0 ||
  c.toNat = 0x1680 || (0x2000 ≤ c.toNat && c.toNat ≤ 0x200a) ||
  c.toNat = 0x2028 || c.toNat = 0x2029 || c.toNat = 0x202f ||
  c.toNat = 0x205f || c.toNat = 0x3000 || c.toNat = 0xfeff

/-- JavaScript `String.prototype.trim`: drop JS whitespace at both ends. -/
def jsTrim (s : String) : String :=
  String.mk (((s.data.dropWhile jsWhitespace).reverse.dropWhile jsWhitespace).reverse)

/-- In-memory state of `SecretGardenLock` (the `code` input field is
omitted: it never feeds back into the gate logic). -/
structure GateState where
  attempts : Nat
  isLocked : Bool
  lockUntil : Option Nat
  deriving Repr, DecidableEq

/-- The two durable `localStorage` keys the gate uses.  `none` models an
absent key. -/
structure Storage where
  secretAttempts : Option Nat
  secretLockUntil : Option Nat
  deriving Repr, DecidableEq

/-- The volatile `sessionStorage` key `secretUnlocked`. -/
structure Session where
  secretUnlocked : Bool
  deriving Repr, DecidableEq

/-- The fixed secret passcode (`src/App.js` line 617). -/
def secretCode : String := "080607012025"

/-- Initial `useState` values of the component (lines 567–570). -/
def gate0 : GateState := { attempts := 0, isLocked := false, lockUntil := none }

/-- Fresh browser profile: no durable keys. -/
def storage0 : Storage := { secretAttempts := none, secretLockUntil := none }

/-- Fresh session: `secretUnlocked` unset. -/
def session0 : Session := { secretUnlocked := false }

/-- Result of one `handleSubmit` call: whether `onUnlock` was invoked,
and the updated component state, durable storage and session storage. -/
structure SubmitResult where
  granted : Bool
  state : GateState
  storage : Storage
  session : Session
  deriving Repr, DecidableEq

/-- Embedding of `handleSubmit` (`src/App.js` 611–638).  Early-returns when locked or
when the code is blank; on the secret code it sets `secretUnlocked` and
removes `secretAttempts`; on a wrong code it increments `attempts`,
persists it, and at 5 sets a 15-minute (`900000` ms) lock. -/
def handleSubmit (code : String) (now : Nat) (st : GateState)
    (sto : Storage) (ses : Session) : SubmitResult :=
  if st.isLocked = true ∨ jsTrim code = "" then
    { granted := false, state := st, storage := sto, session := ses }
  else if code = secretCode then
    { granted := true, state := st,
      storage := { sto with secretAttempts := none },
      session := { ses with secretUnlocked := true } }
  else
    let newAttempts := st.attempts + 1
    let st1 : GateState := { st with attempts := newAttempts }
    let sto1 : Storage := { sto with secretAttempts := some newAttempts }
    if newAttempts ≥ 5 then
      let lockTime := now + 15 * 60 * 1000
      { granted := false,
        state := { st1 with lockUntil := some lockTime, isLocked := true },
        storage := { sto1 with secretLockUntil := some lockTime },
        session := ses }
    else
      { granted := false, state := st1, storage := sto1, session := ses }

/-- The lockout-countdown interval body (`src/App.js` 594–609): runs only
while `isLocked && lockUntil`; once `now ≥ lockUntil` it clears the
component state and removes both durable keys. -/
def tick (now : Nat) (st : GateState) (sto : Storage) : GateState × Storage :=
  if st.isLocked = true then
    match st.lockUntil with
    | some lu =>
      if now ≥ lu then
        ({ attempts := 0, isLocked := false, lockUntil := none },
         { sto with secretAttempts := none, secretLockUntil := none })
      else (st, sto)
    | none => (st, sto)
  else (st, sto)

/-- The mount effect of `SecretGardenLock` (`src/App.js` 575–591),
starting from the initial `useState` values: loads `secretLockUntil`
(kept only when still in the future, removed from storage otherwise)
and then loads `secretAttempts` unconditionally. -/
def initGate (now : Nat) (sto : Storage) : GateState × Storage :=
  let lockPart : Bool × Option Nat × Storage :=
    match sto.secretLockUntil with
    | some lockTime =>
      if now < lockTime then (true, some lockTime, sto)
      else (false, none, { sto with secretLockUntil := none })
    | none => (false, none, sto)
  let attempts : Nat :=
    match lockPart.2.2.secretAttempts with
    | some a => a
    | none => 0
  ({ attempts := attempts, isLocked := lockPart.1, lockUntil := lockPart.2.1 },
   lockPart.2.2)

/-! Navigation controller (`src/App.js` 829–905, 956–970)

App-shell state: `currentPage` (`useState('home')`), `isTransitioning`
(`useState(false)`), `isMobileMenuOpen` (`useState(false)`).  A page
change through `handleNavigation` schedules a single 350 ms one-shot
timer; `handleSecretUnlock` and the header's secret-garden button (when
the gate is still locked) set `currentPage` directly. -/

/-- Navigation-relevant part of the app-shell component state. -/
structure NavState where
  currentPage : String
  isTransitioning : Bool
  isMobileMenuOpen : Bool
  deriving Repr, DecidableEq

/-- A scheduled `setTimeout` from `handleNavigation`: its delay in ms
and the page it will install when it fires. -/
structure NavTimer where
  delay : Nat
  target : String
  deriving Repr, DecidableEq

/-- Initial app-shell navigation state (`src/App.js` 829–834). -/
def nav0 : NavState :=
  { currentPage := "home", isTransitioning := false, isMobileMenuOpen := false }

/-- Embedding of `handleNavigation` (`src/App.js` 889–900): no-op when already on
`page`; otherwise sets `isTransitioning` immediately and schedules a
350 ms timer carrying `page`. -/
def handleNavigation (page : String) (st : NavState) : NavState × Option NavTimer :=
  if st.currentPage = page then (st, none)
  else ({ st with isTransitioning := true }, some { delay := 350, target := page })

/-- Body of the `setTimeout` callback in `handleNavigation`
(`src/App.js` 895–899). -/
def fireNavTimer (tm : NavTimer) (st : NavState) : NavState :=
  { st with currentPage := tm.target, isTransitioning := false,
            isMobileMenuOpen := false }

/-- Embedding of `handleSecretUnlock` (`src/App.js` 902–905): sets the unlocked flag
and `currentPage` directly, with no transition. -/
def handleSecretUnlock (st : NavState) : NavState × Bool :=
  ({ st with currentPage := "secret-garden" }, true)

/-- The header's secret-garden button (`src/App.js` 960–970): when
unlocked it goes through `handleNavigation`, otherwise it calls
`setCurrentPage('secret-garden')` directly (no timer, no transition). -/
def headerSecretGardenClick (secretUnlocked : Bool) (st : NavState) :
    NavState × Option NavTimer :=
  if secretUnlocked = true then handleNavigation "secret-garden" st
  else ({ st with currentPage := "secret-garden" }, none)

/-- A navigation-level system configuration: the component state plus
the queue of pending `setTimeout` callbacks (all delays are the fixed
350 ms, so timers fire in FIFO order). -/
structure NavSys where
  nav : NavState
  pending : List NavTimer
  deriving Repr, DecidableEq

/-- Events the UI runtime can deliver to the navigation state. -/
inductive NavEvent where
  | navClick (page : String)
  | secretClick (secretUnlocked : Bool)
  | secretUnlockEvent
  | timerFire
  deriving Repr, DecidableEq

/-- One step of the navigation system under an event. -/
def navStep (e : NavEvent) (s : NavSys) : NavSys :=
  match e with
  | NavEvent.navClick page =>
    let r := handleNavigation page s.nav
    { nav := r.1, pending := s.pending ++ r.2.toList }
  | NavEvent.secretClick u =>
    let r := headerSecretGardenClick u s.nav
    { nav := r.1, pending := s.pending ++ r.2.toList }
  | NavEvent.secretUnlockEvent =>
    { nav := (handleSecretUnlock s.nav).1, pending := s.pending }
  | NavEvent.timerFire =>
    match s.pending with
    | [] => s
    | tm :: rest => { nav := fireNavTimer tm s.nav, pending := rest }

/-- Run a list of events from a configuration. -/
def runNav (es : List NavEvent) (s : NavSys) : NavSys :=
  match es with
  | [] => s
  | e :: rest => runNav rest (navStep e s)

/-! Suggestion-form validator (`src/App.js` 850–860) -/

/-- Character class `\S` of the JS regex: any non-whitespace character. -/
def nonSpace (c : Char) : Bool := !(jsWhitespace c)

/-- Matches `\S*\.\S+` at the head of the list (with backtracking, so
`true` iff some way of splitting succeeds). -/
def matchStarDotS : List Char → Bool
  | [] => false
  | c :: rest =>
    (c = '.' && (match rest with | d :: _ => nonSpace d | [] => false)) ||
    (nonSpace c && matchStarDotS rest)

/-- Matches `\S+\.\S+` at the head of the list. -/
def matchPlusDotS : List Char → Bool
  | [] => false
  | c :: rest => nonSpace c && matchStarDotS rest

/-- Matches `\S*@\S+\.\S+` at the head of the list. -/
def matchStarAtTail : List Char → Bool
  | [] => false
  | c :: rest =>
    (c = '@' && matchPlusDotS rest) || (nonSpace c && matchStarAtTail rest)

/-- Holds (`true`) iff `\S+@\S+\.\S+` matches starting at some position of the
list: the embedding of `/\S+@\S+\.\S+/.test(s)`. -/
def emailTestList : List Char → Bool
  | [] => false
  | c :: rest => (nonSpace c && matchStarAtTail rest) || emailTestList rest

/-- Embedding of `/\S+@\S+\.\S+/.test(email)` (`src/App.js` line 855). -/
def emailTest (s : String) : Bool := emailTestList s.data

/-- The `errors` object built by `validateForm`: per-field optional
error message. -/
structure FormErrors where
  title : Option String
  email : Option String
  deriving Repr, DecidableEq

/-- Embedding of `validateForm` (`src/App.js` 850–860): `title` must be non-blank
after trimming; `email`, when non-empty, must pass the regex test. -/
def validateForm (title email : String) : FormErrors :=
  { title := if jsTrim title = "" then some "Please enter your dive suggestion" else none,
    email := if email ≠ "" ∧ emailTest email = false
             then some "Please enter a valid email address" else none }

/-! Translation lookup (`src/App.js` 531–540)

`t` splits the key on dots, walks `value = value?.[k]` over the
`translations` table, and returns `value || key`.  Because the walk
uses JS property access, it is not confined to the table: a string
value exposes `length`, numeric indices and its prototype methods, an
object literal exposes the members of `Object.prototype`, an array
exposes `length`, indices and `Array.prototype` methods, a number and a
function expose their prototypes' members.  The value domain and
`getProp` below model this (ECMAScript 2024 including Annex B, as in
mainstream engines).  A built-in function value is modelled by the
property name it was reached through.  The few accesses whose result
this model does not represent (`__proto__`, which yields a prototype
object; `length`, `caller` and `arguments` on a function; an index
access that would produce a lone surrogate) map to the explicit marker
`PropResult.unmodeled`, which propagates — they are never silently
turned into `undefined`. -/

/-- A runtime JS value the lookup loop can produce. -/
inductive JSVal where
  | str (s : String) : JSVal
  | num (n : Nat) : JSVal
  | obj (entries : List (String × JSVal)) : JSVal
  | arr (elems : List JSVal) : JSVal
  | jsFun (name : String) : JSVal
  deriving Repr

/-- The `en` branch of the `translations` object (`src/App.js` 268-388),
transcribed verbatim. -/
def enTranslations : JSVal :=
  JSVal.obj [
    ("nav",
      JSVal.obj [
        ("home",
          JSVal.str "Home"),
        ("about",
          JSVal.str "About Me"),
        ("info",
          JSVal.str "My Info"),
        ("toMontion",
          JSVal.str "To Montion"),
        ("secretGarden",
          JSVal.str "Secret Garden"),
        ("skipToContent",
          JSVal.str "Skip to main content"),
        ("toggleMenu",
          JSVal.str "Toggle navigation menu"),
        ("toggleLanguage",
          JSVal.str "Switch to Arabic"),
        ("toggleAudio",
          JSVal.str "Toggle background audio")]),
    ("hero",
      JSVal.obj [
        ("title",
          JSVal.str "Discover the Mysteries of the Deep"),
        ("subtitle",
          JSVal.str "Join me on an educational adventure through the underwater world, where every dive reveals new secrets and ancient stories beneath the moonlit waves."),
        ("cta",
          JSVal.str "Begin Your Knowledge Dive")]),
    ("home",
      JSVal.obj [
        ("mysteriousEvents",
          JSVal.str "Mysterious Deep Sea Events"),
        ("event1Title",
          JSVal.str "The Lost City of Atlantis"),
        ("event1Desc",
          JSVal.str "Exploring the legendary underwater civilization and uncovering its hidden treasures beneath ancient coral gardens."),
        ("event2Title",
          JSVal.str "Abyssal Creatures of Wonder"),
        ("event2Desc",
          JSVal.str "Encountering extraordinary life forms in the ocean's deepest trenches, where bioluminescence lights the darkness."),
        ("event3Title",
          JSVal.str "Shipwreck Chronicles"),
        ("event3Desc",
          JSVal.str "Revealing untold stories from vessels claimed by time and tide, each wreck a portal to maritime history."),
        ("suggestTitle",
          JSVal.str "Suggest Your Next Dive Adventure"),
        ("titleLabel",
          JSVal.str "Dive Topic Suggestion"),
        ("titlePlaceholder",
          JSVal.str "What oceanic mystery should we explore next?"),
        ("emailLabel",
          JSVal.str "Your Email (Optional)"),
        ("emailPlaceholder",
          JSVal.str "your-email@example.com"),
        ("submitSuggestion",
          JSVal.str "Submit Your Dive Idea"),
        ("featuredVideo",
          JSVal.str "Featured Deep Dive Experience"),
        ("videoDescription",
          JSVal.str "Watch our latest underwater exploration revealing the secrets of ancient shipwrecks")]),
    ("about",
      JSVal.obj [
        ("title",
          JSVal.str "The Explorer Behind the Deep Dive"),
        ("intro",
          JSVal.str "Welcome to my underwater universe, fellow ocean enthusiast!"),
        ("content",
          JSVal.arr [
            JSVal.str "I am a passionate marine explorer and educational content creator, dedicated to unveiling the most captivating mysteries hidden beneath our planet's vast oceans. Through my YouTube channel and social media platforms, I craft immersive adventures that seamlessly blend entertainment with meaningful learning experiences.",
            JSVal.str "My mission is elegantly simple yet profoundly important: to inspire others to develop a deep appreciation for the beauty, complexity, and wonder of our marine ecosystems. I aim to foster a vibrant community of curious minds who share an insatiable hunger for oceanic discovery and environmental stewardship.",
            JSVal.str "Together, we embark on extraordinary journeys to explore haunting shipwrecks, encounter magnificent marine creatures, and uncover the countless secrets that lie hidden beneath the waves. Each dive becomes a new chapter in our collective story of discovery, education, and wonder.",
            JSVal.str "Join our growing community of ocean explorers as we dive deeper into knowledge, adventure, and the timeless mysteries of the deep!"]),
        ("subscribeCall",
          JSVal.str "Subscribe to Join Our Diving Community"),
        ("communitySize",
          JSVal.str "Join 50,000+ Ocean Explorers")]),
    ("info",
      JSVal.obj [
        ("title",
          JSVal.str "Connect With Our Ocean Community"),
        ("subtitle",
          JSVal.str "Follow my underwater adventures across all platforms and join our growing community of marine enthusiasts"),
        ("platforms",
          JSVal.obj [
            ("youtube",
              JSVal.obj [
                ("name",
                  JSVal.str "YouTube Channel"),
                ("desc",
                  JSVal.str "In-depth diving documentaries, educational content, and breathtaking underwater cinematography showcasing marine mysteries")]),
            ("instagram",
              JSVal.obj [
                ("name",
                  JSVal.str "Instagram"),
                ("desc",
                  JSVal.str "Daily behind-the-scenes moments, stunning underwater photography, and quick diving tips from our ocean adventures")]),
            ("tiktok",
              JSVal.obj [
                ("name",
                  JSVal.str "TikTok"),
                ("desc",
                  JSVal.str "Short-form educational content, fascinating marine facts, and bite-sized diving adventures for quick learning")]),
            ("discord",
              JSVal.obj [
                ("name",
                  JSVal.str "Discord Community"),
                ("desc",
                  JSVal.str "Join live discussions with fellow divers, participate in Q&A sessions, and connect with our passionate ocean community")])]),
        ("visitProfile",
          JSVal.str "Visit My Profile")]),
    ("toMontion",
      JSVal.obj [
        ("title",
          JSVal.str "A Heartfelt Message of Deep Gratitude"),
        ("message",
          JSVal.arr [
            JSVal.str "Dear extraordinary ocean explorers and cherished community members,",
            JSVal.str "As I sit here in quiet contemplation, watching the gentle moonlight dance across the tranquil water's surface, my heart overflows with profound gratitude for each and every soul who has joined me on this incredible underwater journey of discovery.",
            JSVal.str "Your unwavering support, boundless curiosity, and shared passion for the mysteries of the deep have transformed what began as a personal adventure into a thriving, vibrant community of dedicated explorers. Every thoughtful comment you share, every moment you spend engaging with our content, and every time you spread the word about our adventures adds another precious layer to the rich tapestry of our collective diving experience.",
            JSVal.str "Through your enthusiasm and participation, you have taught me that the greatest treasures are not hidden in the deepest ocean trenches or within ancient shipwrecks, but rather in the meaningful connections we forge and the knowledge we generously share with one another along this extraordinary journey.",
            JSVal.str "Your infectious enthusiasm continuously fuels my passion to dive deeper into uncharted waters, explore further into the unknown, and bring you even more breathtaking, educational content that inspires wonder and respect for our magnificent oceans.",
            JSVal.str "From the very depths of my heart, I extend my most sincere gratitude for becoming an integral part of this underwater family. Here's to countless more dives, amazing discoveries, and magical moments that we will share together as we continue exploring the wonders that lie beneath the waves.",
            JSVal.str "With boundless appreciation and excitement for the adventures that await us in the depths,",
            JSVal.str "Your devoted dive companion and ocean storyteller"]),
        ("closeMessage",
          JSVal.str "Return to the Surface")]),
    ("secretGarden",
      JSVal.obj [
        ("lockTitle",
          JSVal.str "The Coral Garden Awaits"),
        ("lockSubtitle",
          JSVal.str "Only those who know the secret can witness the roses beneath the sea"),
        ("placeholder",
          JSVal.str "Enter the secret beneath the waves"),
        ("unlock",
          JSVal.str "Unlock"),
        ("wrongCode",
          JSVal.str "The depths remain sealed... Try again"),
        ("tooManyAttempts",
          JSVal.str "Too many attempts. The garden is protected for 15 minutes."),
        ("dedication",
          JSVal.str "In the quiet depths of the ocean\nWhere roses breathe underwater\nAnd corals bloom in sunset hues\n\nHere... in this secret place\nDreams meet reality\nAnd promises become eternal truth\n\nJust as I promised you...\nHere is your coral rose garden\nBlooming on the ocean floor\nWaiting for you forever"),
        ("returnToSurface",
          JSVal.str "Return to Surface")]),
    ("thankYou",
      JSVal.obj [
        ("title",
          JSVal.str "Thank You for Your Dive Suggestion!"),
        ("message",
          JSVal.str "Your underwater adventure idea has been successfully received! I'm genuinely excited to explore this fascinating topic and share the discoveries with our amazing community."),
        ("backToHome",
          JSVal.str "Return to Home Base"),
        ("exploreMore",
          JSVal.str "Discover More Ocean Adventures")]),
    ("footer",
      JSVal.obj [
        ("copyright",
          JSVal.str "© 2024 DiveIn4e Adventures. Exploring oceans, inspiring minds."),
        ("madeWith",
          JSVal.str "Crafted with passion for ocean exploration")]),
    ("a11y",
      JSVal.obj [
        ("loading",
          JSVal.str "Content is loading..."),
        ("error",
          JSVal.str "An error occurred while loading content"),
        ("imageAlt",
          JSVal.str "Underwater scene showing")])]

/-- The `ar` branch of the `translations` object (`src/App.js` 389-508),
transcribed verbatim. -/
def arTranslations : JSVal :=
  JSVal.obj [
    ("nav",
      JSVal.obj [
        ("home",
          JSVal.str "الرئيسية"),
        ("about",
          JSVal.str "من أنا"),
        ("info",
          JSVal.str "معلوماتي"),
        ("toMontion",
          JSVal.str "إلى مونتيون"),
        ("secretGarden",
          JSVal.str "الحديقة السرية"),
        ("skipToContent",
          JSVal.str "انتقل للمحتوى الرئيسي"),
        ("toggleMenu",
          JSVal.str "تبديل قائمة التنقل"),
        ("toggleLanguage",
          JSVal.str "التبديل للإنجليزية"),
        ("toggleAudio",
          JSVal.str "تبديل الصوت الخلفي")]),
    ("hero",
      JSVal.obj [
        ("title",
          JSVal.str "اكتشف أسرار الأعماق الخفية"),
        ("subtitle",
          JSVal.str "انضم إلي في مغامرة تعليمية عبر العالم تحت الماء، حيث تكشف كل غوصة أسراراً جديدة وقصصاً عريقة تحت الأمواج المضيئة بنور القمر."),
        ("cta",
          JSVal.str "ابدأ غوصة المعرفة")]),
    ("home",
      JSVal.obj [
        ("mysteriousEvents",
          JSVal.str "الأحداث الغامضة في أعماق البحار"),
        ("event1Title",
          JSVal.str "مدينة أطلانطس المفقودة"),
        ("event1Desc",
          JSVal.str "استكشاف الحضارة الأسطورية تحت الماء وكشف كنوزها المخفية تحت الحدائق المرجانية العتيقة."),
        ("event2Title",
          JSVal.str "مخلوقات الهاوية المذهلة"),
        ("event2Desc",
          JSVal.str "لقاء أشكال حياة استثنائية في أعمق خنادق المحيط، حيث يضيء التوهج الحيوي الظلام."),
        ("event3Title",
          JSVal.str "سجلات حطام السفن"),
        ("event3Desc",
          JSVal.str "كشف قصص لم تُروَ من السفن التي استولى عليها الزمن والمد، كل حطام بوابة لتاريخ بحري عريق."),
        ("suggestTitle",
          JSVal.str "اقترح مغامرة الغوص القادمة"),
        ("titleLabel",
          JSVal.str "اقتراح موضوع الغوص"),
        ("titlePlaceholder",
          JSVal.str "ما اللغز المحيطي الذي يجب أن نستكشفه تالياً؟"),
        ("emailLabel",
          JSVal.str "بريدك الإلكتروني (اختياري)"),
        ("emailPlaceholder",
          JSVal.str "your-email@example.com"),
        ("submitSuggestion",
          JSVal.str "أرسل فكرة الغوص"),
        ("featuredVideo",
          JSVal.str "تجربة الغوص العميق المميزة"),
        ("videoDescription",
          JSVal.str "شاهد أحدث استكشافاتنا تحت الماء لكشف أسرار حطام السفن القديمة")]),
    ("about",
      JSVal.obj [
        ("title",
          JSVal.str "المستكشف وراء الغوص العميق"),
        ("intro",
          JSVal.str "مرحباً بك في عالمي تحت الماء، يا محب المحيط!"),
        ("content",
          JSVal.arr [
            JSVal.str "أنا مستكشف بحري متحمس ومنشئ محتوى تعليمي، مكرس لكشف أكثر الألغاز جاذبية المخفية تحت محيطات كوكبنا الشاسعة. من خلال قناتي على يوتيوب ومنصات التواصل الاجتماعي، أصنع مغامرات غامرة تمزج بسلاسة بين الترفيه وتجارب التعلم المعنوية.",
            JSVal.str "مهمتي بسيطة بأناقة لكنها مهمة بعمق: إلهام الآخرين لتطوير تقدير عميق لجمال وتعقيد وعجائب النظم البيئية البحرية. أهدف لتعزيز مجتمع نابض بالحياة من العقول الفضولية التي تتشارك جوعاً لا يُشبع للاكتشاف المحيطي والإشراف البيئي.",
            JSVal.str "معاً، نشرع في رحلات استثنائية لاستكشاف حطام السفن المؤثر، ولقاء المخلوقات البحرية الرائعة، وكشف الأسرار اللامتناهية المخفية تحت الأمواج. تصبح كل غوصة فصلاً جديداً في قصتنا الجماعية للاكتشاف والتعليم والعجب.",
            JSVal.str "انضم لمجتمعنا المتنامي من مستكشفي المحيط بينما نغوص أعمق في المعرفة والمغامرة وألغاز الأعماق الخالدة!"]),
        ("subscribeCall",
          JSVal.str "اشترك للانضمام لمجتمع الغوص"),
        ("communitySize",
          JSVal.str "انضم لأكثر من 50,000 مستكشف محيط")]),
    ("info",
      JSVal.obj [
        ("title",
          JSVal.str "تواصل مع مجتمع المحيط"),
        ("subtitle",
          JSVal.str "تابع مغامراتي تحت الماء عبر جميع المنصات وانضم لمجتمعنا المتنامي من عشاق البحار"),
        ("platforms",
          JSVal.obj [
            ("youtube",
              JSVal.obj [
                ("name",
                  JSVal.str "قناة يوتيوب"),
                ("desc",
                  JSVal.str "وثائقيات الغوص المتعمقة، والمحتوى التعليمي، والسينما تحت الماء الخلابة التي تعرض ألغاز البحار")]),
            ("instagram",
              JSVal.obj [
                ("name",
                  JSVal.str "إنستغرام"),
                ("desc",
                  JSVal.str "لحظات يومية من وراء الكواليس، تصوير مذهل تحت الماء، ونصائح غوص سريعة من مغامراتنا المحيطية")]),
            ("tiktok",
              JSVal.obj [
                ("name",
                  JSVal.str "تيك توك"),
                ("desc",
                  JSVal.str "محتوى تعليمي قصير الشكل، حقائق بحرية مذهلة، ومغامرات غوص مصغرة للتعلم السريع")]),
            ("discord",
              JSVal.obj [
                ("name",
                  JSVal.str "مجتمع ديسكورد"),
                ("desc",
                  JSVal.str "انضم للنقاشات الحية مع زملائك الغواصين، شارك في جلسات الأسئلة والأجوبة، وتواصل مع مجتمع المحيط المتحمس")])]),
        ("visitProfile",
          JSVal.str "زيارة الملف الشخصي")]),
    ("toMontion",
      JSVal.obj [
        ("title",
          JSVal.str "رسالة صادقة من عمق الامتنان"),
        ("message",
          JSVal.arr [
            JSVal.str "أيها المستكشفون المحيطيون الاستثنائيون وأعضاء المجتمع العزيزون،",
            JSVal.str "بينما أجلس هنا في تأمل هادئ، أراقب ضوء القمر اللطيف يرقص عبر سطح الماء الهادئ، قلبي يفيض بامتنان عميق لكل روح انضمت إلي في هذه الرحلة المذهلة تحت الماء للاكتشاف.",
            JSVal.str "دعمكم الثابت وفضولكم اللامحدود وشغفكم المشترك بألغاز الأعماق حول ما بدأ كمغامرة شخصية إلى مجتمع مزدهر نابض بالحياة من المستكشفين المكرسين. كل تعليق مدروس تشاركونه، وكل لحظة تقضونها في التفاعل مع محتوانا، وكل مرة تنشرون فيها الكلمة عن مغامراتنا تضيف طبقة ثمينة أخرى للنسيج الغني لتجربة الغوص الجماعية.",
            JSVal.str "من خلال حماستكم ومشاركتكم، علمتموني أن أعظم الكنوز لا تختبئ في أعمق خنادق المحيط أو داخل حطام السفن القديمة، بل في الروابط المعنوية التي نشكلها والمعرفة التي نتشاركها بسخاء مع بعضنا البعض على طول هذه الرحلة الاستثنائية.",
            JSVal.str "حماستكم المعدية تغذي باستمرار شغفي للغوص أعمق في المياه غير المستكشفة، واستكشاف أكثر في المجهول، وإحضار محتوى تعليمي خلاب أكثر يلهم العجب والاحترام لمحيطاتنا الرائعة.",
            JSVal.str "من أعماق قلبي، أمد أصدق امتناني لكونكم جزءاً لا يتجزأ من هذه العائلة تحت الماء. نخب لغوصات لا تحصى أكثر، واكتشافات مذهلة، ولحظات سحرية سنتشاركها معاً بينما نواصل استكشاف العجائب التي تكمن تحت الأمواج.",
            JSVal.str "مع تقدير لا حدود له وحماس للمغامرات التي تنتظرنا في الأعماق،",
            JSVal.str "رفيق الغوص المكرس وراوي المحيط"]),
        ("closeMessage",
          JSVal.str "العودة إلى السطح")]),
    ("secretGarden",
      JSVal.obj [
        ("lockTitle",
          JSVal.str "حديقة المرجان في الانتظار"),
        ("lockSubtitle",
          JSVal.str "فقط من يعرف السر يمكنه رؤية الورود تحت البحر"),
        ("placeholder",
          JSVal.str "أدخل السر المخفي تحت الأمواج"),
        ("unlock",
          JSVal.str "افتح"),
        ("wrongCode",
          JSVal.str "الأعماق ما زالت مغلقة... حاول مرة أخرى"),
        ("tooManyAttempts",
          JSVal.str "محاولات كثيرة. الحديقة محمية لمدة 15 دقيقة."),
        ("dedication",
          JSVal.str "في أعماق المحيط الهادئ\nحيث تتنفس الورود تحت الماء\nوتزهر المرجانات بألوان الغروب\n\nهنا... في هذا المكان السري\nتلتقي الأحلام بالواقع\nوتصبح الوعود حقيقة خالدة\n\nتماماً كما وعدتك...\nها هي حديقة الورود المرجانية\nتزهر في قاع البحر\nفي انتظارك إلى الأبد"),
        ("returnToSurface",
          JSVal.str "العودة إلى السطح")]),
    ("thankYou",
      JSVal.obj [
        ("title",
          JSVal.str "شكراً لاقتراح الغوص!"),
        ("message",
          JSVal.str "تم استلام فكرة مغامرتك تحت الماء بنجاح! أنا متحمس حقاً لاستكشاف هذا الموضوع الرائع ومشاركة الاكتشافات مع مجتمعنا المذهل."),
        ("backToHome",
          JSVal.str "العودة للقاعدة الرئيسية"),
        ("exploreMore",
          JSVal.str "اكتشف المزيد من مغامرات المحيط")]),
    ("footer",
      JSVal.obj [
        ("copyright",
          JSVal.str "© 2024 مغامرات الغوص العميق. نستكشف المحيطات، نلهم العقول."),
        ("madeWith",
          JSVal.str "صُنع بشغف لاستكشاف المحيط")]),
    ("a11y",
      JSVal.obj [
        ("loading",
          JSVal.str "يتم تحميل المحتوى..."),
        ("error",
          JSVal.str "حدث خطأ أثناء تحميل المحتوى"),
        ("imageAlt",
          JSVal.str "مشهد تحت الماء يظهر")])]

/-- The `translations` table (`src/App.js` 268-509): one branch per locale. -/
def translations : JSVal :=
  JSVal.obj [("en", enTranslations), ("ar", arTranslations)]

/-! Reachable gate configurations

A configuration is the component state together with the durable and
session storage.  `Reach` closes the freshly-installed configuration
(first mount on an empty profile) under submissions, countdown ticks,
and remounts (page reloads, which rerun the mount effect on the current
durable storage with a fresh session). -/

/-- Gate configuration: component state, durable storage, session. -/
structure GateCfg where
  st : GateState
  sto : Storage
  ses : Session
  deriving Repr, DecidableEq

/-- Apply `handleSubmit` to a configuration. -/
def submitCfg (code : String) (now : Nat) (c : GateCfg) : GateCfg :=
  let r := handleSubmit code now c.st c.sto c.ses
  { st := r.state, sto := r.storage, ses := r.session }

/-- Apply `tick` to a configuration. -/
def tickCfg (now : Nat) (c : GateCfg) : GateCfg :=
  let r := tick now c.st c.sto
  { st := r.1, sto := r.2, ses := c.ses }

/-- Remount (page reload): rerun the mount effect on the current
durable storage; session storage starts fresh. -/
def remountCfg (now : Nat) (c : GateCfg) : GateCfg :=
  let r := initGate now c.sto
  { st := r.1, sto := r.2, ses := session0 }

/-- Configurations reachable from a first mount on an empty profile
through any sequence of submissions, ticks and remounts. -/
inductive Reach : GateCfg → Prop where
  | start (now : Nat) : Reach (remountCfg now { st := gate0, sto := storage0, ses := session0 })
  | submit (code : String) (now : Nat) {c : GateCfg} :
      Reach c → Reach (submitCfg code now c)
  | tickStep (now : Nat) {c : GateCfg} : Reach c → Reach (tickCfg now c)
  | remount (now : Nat) {c : GateCfg} : Reach c → Reach (remountCfg now c)

/-- Configurations reachable within a single mount of the lock screen
on a fresh profile: submissions and ticks only, no reload. -/
inductive ReachCore : GateCfg → Prop where
  | start : ReachCore { st := gate0, sto := storage0, ses := session0 }
  | submit (code : String) (now : Nat) {c : GateCfg} :
      ReachCore c → ReachCore (submitCfg code now c)
  | tickStep (now : Nat) {c : GateCfg} : ReachCore c → ReachCore (tickCfg now c)

/-- Iterate `handleSubmit` with the same code at the given sequence of
submission times. -/
def submitSeq (code : String) (times : List Nat) (c : GateCfg) : GateCfg :=
  match times with
  | [] => c
  | now :: rest => submitSeq code rest (submitCfg code now c)

/-- Invariant tying the component state to the durable storage: when the
component is not locked, no in-memory or durable lock is present. -/
def gateInv (c : GateCfg) : Prop :=
  (c.st.isLocked = false → c.st.lockUntil = none) ∧
  (c.st.isLocked = false → c.sto.secretLockUntil = none)

lemma handleSubmit_wrong_small {code : String} (h1 : jsTrim code ≠ "")
    (h2 : code ≠ secretCode) {st : GateState} (hL : st.isLocked = false)
    (hlt : st.attempts + 1 < 5) (now : Nat) (sto : Storage) (ses : Session) :
    handleSubmit code now st sto ses =
      { granted := false, state := { st with attempts := st.attempts + 1 },
        storage := { sto with secretAttempts := some (st.attempts + 1) },
        session := ses } := by
  unfold handleSubmit
  rw [if_neg, if_neg h2, if_neg (by omega)]
  rintro (h | h)
  · rw [hL] at h; exact Bool.false_ne_true h
  · exact h1 h

lemma handleSubmit_wrong_big {code : String} (h1 : jsTrim code ≠ "")
    (h2 : code ≠ secretCode) {st : GateState} (hL : st.isLocked = false)
    (hge : st.attempts + 1 ≥ 5) (now : Nat) (sto : Storage) (ses : Session) :
    handleSubmit code now st sto ses =
      { granted := false,
        state := { attempts := st.attempts + 1, isLocked := true,
                   lockUntil := some (now + 15 * 60 * 1000) },
        storage := { secretAttempts := some (st.attempts + 1),
                     secretLockUntil := some (now + 15 * 60 * 1000) },
        session := ses } := by
  unfold handleSubmit
  rw [if_neg, if_neg h2, if_pos hge]
  rintro (h | h)
  · rw [hL] at h; exact Bool.false_ne_true h
  · exact h1 h

lemma handleSubmit_correct {st : GateState} (hL : st.isLocked = false)
    (now : Nat) (sto : Storage) (ses : Session) :
    handleSubmit secretCode now st sto ses =
      { granted := true, state := st,
        storage := { sto with secretAttempts := none },
        session := { ses with secretUnlocked := true } } := by
  unfold handleSubmit
  rw [if_neg, if_pos rfl]
  rintro (h | h)
  · rw [hL] at h; exact Bool.false_ne_true h
  · exact absurd h (by decide)

lemma handleSubmit_locked {st : GateState} (hL : st.isLocked = true)
    (code : String) (now : Nat) (sto : Storage) (ses : Session) :
    handleSubmit code now st sto ses =
      { granted := false, state := st, storage := sto, session := ses } := by
  unfold handleSubmit
  rw [if_pos (Or.inl hL)]

lemma submitSeq_wrong {code : String} (h1 : jsTrim code ≠ "")
    (h2 : code ≠ secretCode) :
    ∀ (ts : List Nat) (st : GateState) (sto : Storage) (ses : Session),
      st.isLocked = false → st.lockUntil = none → st.attempts + ts.length ≤ 4 →
      submitSeq code ts { st := st, sto := sto, ses := ses } =
        { st := { attempts := st.attempts + ts.length, isLocked := false,
                  lockUntil := none },
          sto := { secretAttempts :=
                     if ts.length = 0 then sto.secretAttempts
                     else some (st.attempts + ts.length),
                   secretLockUntil := sto.secretLockUntil },
          ses := ses } := by
  intro ts
  induction ts with
  | nil =>
    intro st sto ses hL hU _
    obtain ⟨a, l, u⟩ := st
    obtain ⟨sa, sl⟩ := sto
    simp only [GateState.isLocked] at hL
    simp only [GateState.lockUntil] at hU
    subst hL; subst hU
    simp [submitSeq]
  | cons hd tl ih =>
    intro st sto ses hL hU hbound
    have hlen : st.attempts + (hd :: tl).length = (st.attempts + 1) + tl.length := by
      simp [List.length_cons]; omega
    have hstep := handleSubmit_wrong_small h1 h2 hL (by simp at hbound; omega) hd sto ses
    have : submitCfg code hd { st := st, sto := sto, ses := ses } =
        { st := { st with attempts := st.attempts + 1 },
          sto := { sto with secretAttempts := some (st.attempts + 1) },
          ses := ses } := by
      simp [submitCfg, hstep]
    rw [submitSeq, this,
      ih { st with attempts := st.attempts + 1 }
         { sto with secretAttempts := some (st.attempts + 1) } ses hL hU
         (by simp at hbound ⊢; omega)]
    by_cases htl : tl.length = 0
    · simp [htl, GateCfg.mk.injEq, GateState.mk.injEq, Storage.mk.injEq]
    · simp [htl, GateCfg.mk.injEq, GateState.mk.injEq, Storage.mk.injEq]
      omega

lemma remountCfg_inv (now : Nat) (c : GateCfg) : gateInv (remountCfg now c) := by
  unfold gateInv remountCfg initGate
  obtain ⟨st, ⟨sa, sl⟩, ses⟩ := c
  cases sl with
  | none => simp
  | some lockTime =>
    by_cases h : now < lockTime
    · simp [h]
    · simp [h]

lemma submitCfg_inv (code : String) (now : Nat) {c : GateCfg}
    (hc : gateInv c) : gateInv (submitCfg code now c) := by
  obtain ⟨hc1, hc2⟩ := hc
  unfold gateInv submitCfg handleSubmit
  by_cases hguard : c.st.isLocked = true ∨ jsTrim code = ""
  · rw [if_pos hguard]; exact ⟨hc1, hc2⟩
  · rw [if_neg hguard]
    by_cases hsec : code = secretCode
    · rw [if_pos hsec]; exact ⟨hc1, hc2⟩
    · rw [if_neg hsec]
      by_cases hfive : c.st.attempts + 1 ≥ 5
      · rw [if_pos hfive]
        constructor
        · intro h; exact absurd h (by simp)
        · intro h; exact absurd h (by simp)
      · rw [if_neg hfive]
        have hL : c.st.isLocked = false := by
          cases h : c.st.isLocked with
          | false => rfl
          | true => exact absurd (Or.inl h) hguard
        exact ⟨fun _ => hc1 hL, fun _ => hc2 hL⟩

lemma tickCfg_inv (now : Nat) {c : GateCfg} (hc : gateInv c) :
    gateInv (tickCfg now c) := by
  obtain ⟨⟨a, l, u⟩, sto, ses⟩ := c
  obtain ⟨hc1, hc2⟩ := hc
  cases l with
  | false =>
    simp only [gateInv, tickCfg, tick] at hc1 hc2 ⊢
    simp at hc1 hc2 ⊢
    exact ⟨hc1, hc2⟩
  | true =>
    cases u with
    | none => simp [gateInv, tickCfg, tick]
    | some lu =>
      by_cases hnow : now ≥ lu
      · simp [gateInv, tickCfg, tick, hnow]
      · simp [gateInv, tickCfg, tick, hnow]

/-- Every reachable gate configuration satisfies the lock invariant. -/
lemma reach_inv {c : GateCfg} (h : Reach c) : gateInv c := by
  induction h with
  | start now => exact remountCfg_inv now _
  | submit code now _ ih => exact submitCfg_inv code now ih
  | tickStep now _ ih => exact tickCfg_inv now ih
  | remount now _ ih => exact remountCfg_inv now _

/-- A reachable configuration whose component state is not locked has no
in-memory and no durable lock timestamp. -/
lemma reach_unlocked_no_lock {c : GateCfg} (h : Reach c)
    (hL : c.st.isLocked = false) :
    c.st.lockUntil = none ∧ c.sto.secretLockUntil = none :=
  ⟨(reach_inv h).1 hL, (reach_inv h).2 hL⟩

/-- A reachable configuration carrying a lock timestamp is locked. -/
lemma reach_lockUntil_isLocked {c : GateCfg} (h : Reach c) {lu : Nat}
    (hu : c.st.lockUntil = some lu) : c.st.isLocked = true := by
  cases hL : c.st.isLocked with
  | true => rfl
  | false => rw [(reach_inv h).1 hL] at hu; exact Option.noConfusion hu

lemma handleSubmit_rejected {st : GateState} {code : String}
    (hG : st.isLocked = true ∨ jsTrim code = "") (now : Nat) (sto : Storage)
    (ses : Session) :
    handleSubmit code now st sto ses =
      { granted := false, state := st, storage := sto, session := ses } := by
  unfold handleSubmit
  rw [if_pos hG]

/-- C1: starting from a state with `attempts = 0` and no lockout, every
wrong-code submission increments `attempts` by exactly 1 and persists
the new value; every sequence of 4 or fewer wrong submissions leaves
`attempts` equal to the number of submissions with no lockout set; and
the 5th consecutive wrong submission returns `granted = false` and sets
`lockedUntil = now + 900000` both in memory and in durable storage. -/
theorem secret_gate_wrong_code_progression
    (code : String) (h1 : jsTrim code ≠ "") (h2 : code ≠ secretCode)
    (sto : Storage) (ses : Session) :
    (∀ (st : GateState) (now : Nat) (sto2 : Storage) (ses2 : Session),
      st.isLocked = false →
      (handleSubmit code now st sto2 ses2).granted = false ∧
      (handleSubmit code now st sto2 ses2).state.attempts = st.attempts + 1 ∧
      (handleSubmit code now st sto2 ses2).storage.secretAttempts = some (st.attempts + 1))
    ∧ (∀ ts : List Nat, ts.length ≤ 4 →
      submitSeq code ts { st := gate0, sto := sto, ses := ses } =
        { st := { attempts := ts.length, isLocked := false, lockUntil := none },
          sto := { secretAttempts :=
                     if ts.length = 0 then sto.secretAttempts else some ts.length,
                   secretLockUntil := sto.secretLockUntil },
          ses := ses })
    ∧ (∀ ts : List Nat, ts.length = 4 → ∀ now : Nat,
      handleSubmit code now (submitSeq code ts { st := gate0, sto := sto, ses := ses }).st
          (submitSeq code ts { st := gate0, sto := sto, ses := ses }).sto
          (submitSeq code ts { st := gate0, sto := sto, ses := ses }).ses =
        { granted := false,
          state := { attempts := 5, isLocked := true, lockUntil := some (now + 900000) },
          storage := { secretAttempts := some 5, secretLockUntil := some (now + 900000) },
          session := ses }) := by
  have part1 : ∀ (st : GateState) (now : Nat) (sto2 : Storage) (ses2 : Session),
      st.isLocked = false →
      (handleSubmit code now st sto2 ses2).granted = false ∧
      (handleSubmit code now st sto2 ses2).state.attempts = st.attempts + 1 ∧
      (handleSubmit code now st sto2 ses2).storage.secretAttempts = some (st.attempts + 1) := by
    intro st now sto2 ses2 hL
    by_cases h5 : st.attempts + 1 ≥ 5
    · rw [handleSubmit_wrong_big h1 h2 hL h5 now sto2 ses2]
      exact ⟨rfl, rfl, rfl⟩
    · rw [handleSubmit_wrong_small h1 h2 hL (by omega) now sto2 ses2]
      exact ⟨rfl, rfl, rfl⟩
  have part2 : ∀ ts : List Nat, ts.length ≤ 4 →
      submitSeq code ts { st := gate0, sto := sto, ses := ses } =
        { st := { attempts := ts.length, isLocked := false, lockUntil := none },
          sto := { secretAttempts :=
                     if ts.length = 0 then sto.secretAttempts else some ts.length,
                   secretLockUntil := sto.secretLockUntil },
          ses := ses } := by
    intro ts hts
    have h := submitSeq_wrong h1 h2 ts gate0 sto ses rfl rfl (by simpa [gate0] using hts)
    simpa [gate0] using h
  refine ⟨part1, part2, ?_⟩
  intro ts hts now
  rw [part2 ts (by omega)]
  rw [hts]
  have hbig := @handleSubmit_wrong_big code h1 h2
    { attempts := 4, isLocked := false, lockUntil := none } rfl (by decide) now
    { secretAttempts := if (4 : Nat) = 0 then sto.secretAttempts else some 4,
      secretLockUntil := sto.secretLockUntil } ses
  simpa using hbig

/-- Witness for C1: the spec scenario with code `"000000000000"`: four
wrong submissions give `attempts = 4` and no lock, and the 5th at
`now = 10` locks until `900010`. -/
theorem secret_gate_wrong_code_progression_witness :
    submitSeq "000000000000" [1, 2, 3, 4] { st := gate0, sto := storage0, ses := session0 } =
      { st := { attempts := 4, isLocked := false, lockUntil := none },
        sto := { secretAttempts := some 4, secretLockUntil := none },
        ses := session0 } ∧
    handleSubmit "000000000000" 10
        { attempts := 4, isLocked := false, lockUntil := none }
        { secretAttempts := some 4, secretLockUntil := none } session0 =
      { granted := false,
        state := { attempts := 5, isLocked := true, lockUntil := some 900010 },
        storage := { secretAttempts := some 5, secretLockUntil := some 900010 },
        session := session0 } := by
  have h := secret_gate_wrong_code_progression "000000000000" (by decide) (by decide)
    storage0 session0
  constructor
  · have h2 := h.2.1 [1, 2, 3, 4] (by decide)
    simpa [storage0] using h2
  · have h3 := h.2.2 [1, 2, 3, 4] rfl 10
    exact h3

/-- C2: a reachable configuration that carries a lock timestamp with
`now` still inside the lock window rejects every submission (even the
true secret) outright: `granted = false`, component state, durable
storage and session storage all unchanged. -/
theorem secret_gate_locked_rejects_unchanged
    {c : GateCfg} (hreach : Reach c) {lu : Nat}
    (hu : c.st.lockUntil = some lu) {now : Nat} (_hnow : now < lu)
    (code : String) :
    handleSubmit code now c.st c.sto c.ses =
      { granted := false, state := c.st, storage := c.sto, session := c.ses } :=
  handleSubmit_rejected (Or.inl (reach_lockUntil_isLocked hreach hu)) now c.sto c.ses

/-- Witness for C2: after five wrong submissions at `now = 0` the gate is
locked until `900000`; submitting the true secret at `now = 1000`
changes nothing. -/
theorem secret_gate_locked_rejects_unchanged_witness :
    handleSubmit secretCode 1000
        { attempts := 5, isLocked := true, lockUntil := some 900000 }
        { secretAttempts := some 5, secretLockUntil := some 900000 } session0 =
      { granted := false,
        state := { attempts := 5, isLocked := true, lockUntil := some 900000 },
        storage := { secretAttempts := some 5, secretLockUntil := some 900000 },
        session := session0 } := by
  have hreach : Reach
      { st := { attempts := 5, isLocked := true, lockUntil := some 900000 },
        sto := { secretAttempts := some 5, secretLockUntil := some 900000 },
        ses := session0 } :=
    Reach.submit "x" 0 (Reach.submit "x" 0 (Reach.submit "x" 0 (Reach.submit "x" 0
      (Reach.submit "x" 0 (Reach.start 0)))))
  exact secret_gate_locked_rejects_unchanged hreach rfl (by decide) secretCode

/-- C3: in a reachable unlocked configuration, a submission is granted
iff the code is whole-string equal to the fixed 12-character numeric
secret; a grant returns `granted = true`, removes the durable attempt
counter and (by the lock invariant) leaves no durable lock, marks
`secretUnlocked = true` in session storage, and the gate state produced
by the mount effect on the resulting storage has `attempts = 0` and no
lockout. -/
theorem secret_gate_grant_iff_secret
    {c : GateCfg} (hreach : Reach c) (hL : c.st.isLocked = false)
    (code : String) (now : Nat) :
    ((handleSubmit code now c.st c.sto c.ses).granted = true ↔ code = secretCode)
    ∧ (code = secretCode →
        handleSubmit code now c.st c.sto c.ses =
          { granted := true, state := c.st,
            storage := { secretAttempts := none, secretLockUntil := none },
            session := { secretUnlocked := true } }
        ∧ ∀ now2 : Nat, initGate now2 { secretAttempts := none, secretLockUntil := none } =
            ({ attempts := 0, isLocked := false, lockUntil := none },
             { secretAttempts := none, secretLockUntil := none })) := by
  have hno := reach_unlocked_no_lock hreach hL
  have hgrant : code = secretCode →
      handleSubmit code now c.st c.sto c.ses =
        { granted := true, state := c.st,
          storage := { secretAttempts := none, secretLockUntil := none },
          session := { secretUnlocked := true } } := by
    intro hsec
    subst hsec
    rw [handleSubmit_correct hL]
    have hsl := hno.2
    simp [SubmitResult.mk.injEq, Storage.mk.injEq, hsl]
  constructor
  · constructor
    · intro hg
      by_cases hsec : code = secretCode
      · exact hsec
      · exfalso
        by_cases hblank : jsTrim code = ""
        · rw [handleSubmit_rejected (Or.inr hblank) now c.sto c.ses] at hg
          exact Bool.false_ne_true hg
        · by_cases h5 : c.st.attempts + 1 ≥ 5
          · rw [handleSubmit_wrong_big hblank hsec hL h5 now c.sto c.ses] at hg
            exact Bool.false_ne_true hg
          · rw [handleSubmit_wrong_small hblank hsec hL (by omega) now c.sto c.ses] at hg
            exact Bool.false_ne_true hg
    · intro hsec
      rw [hgrant hsec]
  · intro hsec
    exact ⟨hgrant hsec, fun now2 => rfl⟩

/-- Witness for C3: on a fresh profile, submitting the secret at
`now = 7` grants access, removes the durable counter and sets the
session flag. -/
theorem secret_gate_grant_iff_secret_witness :
    handleSubmit secretCode 7 gate0 storage0 session0 =
      { granted := true, state := gate0,
        storage := { secretAttempts := none, secretLockUntil := none },
        session := { secretUnlocked := true } } := by
  have h := secret_gate_grant_iff_secret (Reach.start 0) rfl secretCode 7
  exact (h.2 rfl).1

/-- The attempts value the mount effect reads back from storage:
the stored counter, or 0 when the key is absent. -/
def storedAttempts (sto : Storage) : Nat :=
  match sto.secretAttempts with
  | some a => a
  | none => 0

/-- C4 counterexample: with stored `attempts = 5` and a stored lock
timestamp `100` already in the past at `now = 200`, the mount effect
removes the lock but loads `attempts = 5`, not `0` — it does not clear
both lockout fields as the claim states. -/
theorem init_expired_lock_keeps_attempts_cex :
    initGate 200 { secretAttempts := some 5, secretLockUntil := some 100 } =
      ({ attempts := 5, isLocked := false, lockUntil := none },
       { secretAttempts := some 5, secretLockUntil := none }) ∧
    ({ attempts := 5, isLocked := false, lockUntil := none } : GateState).attempts ≠ 0 := by
  decide

/-- C4 amended: the mount effect loads durable `attempts` and
`lockedUntil` from storage; a stored `lockedUntil` still in the future
is kept (state locked), and a stored `lockedUntil` in the past is
removed from state and storage while `attempts` is loaded unchanged
from storage — so the state after an expired lock has no `lockedUntil`
but `attempts` equal to the stored value, not 0. -/
theorem init_gate_loads_storage
    (now : Nat) (sto : Storage) :
    (∀ lt, sto.secretLockUntil = some lt → now < lt →
      initGate now sto =
        ({ attempts := storedAttempts sto, isLocked := true, lockUntil := some lt }, sto))
    ∧ (∀ lt, sto.secretLockUntil = some lt → lt ≤ now →
      initGate now sto =
        ({ attempts := storedAttempts sto, isLocked := false, lockUntil := none },
         { sto with secretLockUntil := none }))
    ∧ (sto.secretLockUntil = none →
      initGate now sto =
        ({ attempts := storedAttempts sto, isLocked := false, lockUntil := none }, sto)) := by
  obtain ⟨sa, sl⟩ := sto
  refine ⟨?_, ?_, ?_⟩
  · intro lt hsl hlt
    simp only [Storage.secretLockUntil] at hsl
    subst hsl
    simp [initGate, storedAttempts, hlt]
  · intro lt hsl hle
    simp only [Storage.secretLockUntil] at hsl
    subst hsl
    simp [initGate, storedAttempts, Nat.not_lt.mpr hle]
  · intro hsl
    simp only [Storage.secretLockUntil] at hsl
    subst hsl
    simp [initGate, storedAttempts]

/-- Witness for C4 (amended): the counterexample input, routed through
the amended theorem. -/
theorem init_gate_loads_storage_witness :
    initGate 200 { secretAttempts := some 5, secretLockUntil := some 100 } =
      ({ attempts := 5, isLocked := false, lockUntil := none },
       { secretAttempts := some 5, secretLockUntil := none }) := by
  have h := (init_gate_loads_storage 200
    { secretAttempts := some 5, secretLockUntil := some 100 }).2.1 100 rfl (by decide)
  exact h

/-- C5 counterexample: five wrong submissions lock the gate until
`900000`; a remount at `900000` drops the expired lock but keeps the
stored `attempts = 5`, and one further wrong submission pushes
`attempts` to 6 — outside `[0, maxAttempts]` — in a configuration
reachable through initialize/submit/tick operations. -/
theorem gate_attempts_exceed_bound_cex :
    Reach { st := { attempts := 6, isLocked := true, lockUntil := some 1800000 },
            sto := { secretAttempts := some 6, secretLockUntil := some 1800000 },
            ses := session0 } ∧
    ¬ ({ attempts := 6, isLocked := true, lockUntil := some 1800000 } : GateState).attempts ≤ 5 := by
  constructor
  · exact Reach.submit "x" 900000 (Reach.remount 900000 (Reach.submit "x" 0
      (Reach.submit "x" 0 (Reach.submit "x" 0 (Reach.submit "x" 0
        (Reach.submit "x" 0 (Reach.start 0)))))))
  · decide

/-- Strengthened invariant for configurations reachable without a
remount: `attempts` never exceeds 5, and is at most 4 while unlocked. -/
lemma reachCore_attempts_inv {c : GateCfg} (h : ReachCore c) :
    c.st.attempts ≤ 5 ∧ (c.st.isLocked = false → c.st.attempts ≤ 4) := by
  induction h with
  | start => exact ⟨by decide, fun _ => by decide⟩
  | submit code now h ih =>
    rename_i cp
    obtain ⟨ih1, ih2⟩ := ih
    by_cases hguard : cp.st.isLocked = true ∨ jsTrim code = ""
    · have he : submitCfg code now cp = cp := by
        simp [submitCfg, handleSubmit_rejected hguard]
      rw [he]
      exact ⟨ih1, ih2⟩
    · have hL : cp.st.isLocked = false := by
        cases hl : cp.st.isLocked with
        | false => rfl
        | true => exact absurd (Or.inl hl) hguard
      have hblank : jsTrim code ≠ "" := fun hb => hguard (Or.inr hb)
      by_cases hsec : code = secretCode
      · subst hsec
        have he : submitCfg secretCode now cp =
            { st := cp.st, sto := { cp.sto with secretAttempts := none },
              ses := { cp.ses with secretUnlocked := true } } := by
          simp [submitCfg, handleSubmit_correct hL]
        rw [he]
        exact ⟨ih1, ih2⟩
      · by_cases h5 : cp.st.attempts + 1 ≥ 5
        · have he : submitCfg code now cp =
              { st := { attempts := cp.st.attempts + 1, isLocked := true,
                        lockUntil := some (now + 15 * 60 * 1000) },
                sto := { secretAttempts := some (cp.st.attempts + 1),
                         secretLockUntil := some (now + 15 * 60 * 1000) },
                ses := cp.ses } := by
            simp [submitCfg, handleSubmit_wrong_big hblank hsec hL h5]
          rw [he]
          have hle := ih2 hL
          refine ⟨by simp; omega, fun hfalse => by simp at hfalse⟩
        · have he : submitCfg code now cp =
              { st := { cp.st with attempts := cp.st.attempts + 1 },
                sto := { cp.sto with secretAttempts := some (cp.st.attempts + 1) },
                ses := cp.ses } := by
            simp [submitCfg, handleSubmit_wrong_small hblank hsec hL (by omega)]
          rw [he]
          have hle := ih2 hL
          exact ⟨by simp; omega, fun _ => by simp; omega⟩
  | tickStep now h ih =>
    rename_i cp
    obtain ⟨ih1, ih2⟩ := ih
    obtain ⟨⟨a, l, u⟩, sto, ses⟩ := cp
    cases l with
    | false =>
      simp only [tickCfg, tick, GateCfg.st, GateState.isLocked, GateState.attempts] at ih1 ih2 ⊢
      simp at ih1 ih2 ⊢
      exact ⟨ih1, ih2⟩
    | true =>
      cases u with
      | none =>
        simp only [tickCfg, tick, GateCfg.st, GateState.isLocked, GateState.attempts,
          GateState.lockUntil] at ih1 ih2 ⊢
        simp at ih1 ih2 ⊢
        exact ih1
      | some lu =>
        by_cases hnow : now ≥ lu
        · simp [tickCfg, tick, hnow]
        · simp only [tickCfg, tick, GateCfg.st, GateState.isLocked, GateState.attempts,
            GateState.lockUntil] at ih1 ih2 ⊢
          simp [hnow] at ih1 ih2 ⊢
          exact ih1

/-- C5 amended: within a single mount on a fresh profile (submissions
and ticks, no reload) `attempts` stays in `[0, 5]`; a tick at or after
`lockedUntil` resets `attempts` to 0 in memory and removes the durable
counter; and a successful unlock removes the durable counter.  (A
remount that observes an expired lock keeps the stored `attempts`, so
with reloads the bound fails — see the counterexample.) -/
theorem gate_attempts_bounded_core :
    (∀ c : GateCfg, ReachCore c → c.st.attempts ≤ 5)
    ∧ (∀ (now : Nat) (st : GateState) (sto : Storage) (lu : Nat),
        st.isLocked = true → st.lockUntil = some lu → lu ≤ now →
        (tick now st sto).1.attempts = 0 ∧ (tick now st sto).2.secretAttempts = none)
    ∧ (∀ (st : GateState) (sto : Storage) (ses : Session) (now : Nat),
        st.isLocked = false →
        (handleSubmit secretCode now st sto ses).granted = true ∧
        (handleSubmit secretCode now st sto ses).storage.secretAttempts = none) := by
  refine ⟨fun c h => (reachCore_attempts_inv h).1, ?_, ?_⟩
  · intro now st sto lu hL hu hle
    obtain ⟨a, l, u⟩ := st
    simp only [GateState.isLocked] at hL
    simp only [GateState.lockUntil] at hu
    subst hL
    subst hu
    simp [tick, hle]
  · intro st sto ses now hL
    rw [handleSubmit_correct hL]
    exact ⟨rfl, rfl⟩

/-- Witness for C5 (amended): the fresh configuration satisfies the
bound; a tick at the expiry instant clears the counter; the secret
grants and removes the durable counter. -/
theorem gate_attempts_bounded_core_witness :
    ({ st := gate0, sto := storage0, ses := session0 } : GateCfg).st.attempts ≤ 5 ∧
    (tick 900000 { attempts := 5, isLocked := true, lockUntil := some 900000 }
        { secretAttempts := some 5, secretLockUntil := some 900000 }).1.attempts = 0 ∧
    (handleSubmit secretCode 3 gate0 storage0 session0).granted = true := by
  have h := gate_attempts_bounded_core
  refine ⟨h.1 _ ReachCore.start, ?_, ?_⟩
  · exact (h.2.1 900000 { attempts := 5, isLocked := true, lockUntil := some 900000 }
      { secretAttempts := some 5, secretLockUntil := some 900000 } 900000 rfl rfl
      (Nat.le_refl 900000)).1
  · exact (h.2.2 gate0 storage0 session0 3 rfl).1

/-- C6: the countdown tick clears `attempts` and `lockedUntil` (in
memory and in durable storage) exactly when the state is locked and
`now ≥ lockedUntil`; in every other case — not locked, no `lockedUntil`
value, or `now` still before `lockedUntil` — it returns state and
storage completely unchanged. -/
theorem gate_tick_clears_iff (now : Nat) (st : GateState) (sto : Storage) :
    (∀ lu, st.isLocked = true → st.lockUntil = some lu → lu ≤ now →
      tick now st sto =
        ({ attempts := 0, isLocked := false, lockUntil := none },
         { sto with secretAttempts := none, secretLockUntil := none }))
    ∧ (st.isLocked = false → tick now st sto = (st, sto))
    ∧ (st.lockUntil = none → tick now st sto = (st, sto))
    ∧ (∀ lu, st.lockUntil = some lu → now < lu → tick now st sto = (st, sto)) := by
  obtain ⟨a, l, u⟩ := st
  refine ⟨?_, ?_, ?_, ?_⟩
  · intro lu hL hu hle
    simp only [GateState.isLocked] at hL
    simp only [GateState.lockUntil] at hu
    subst hL
    subst hu
    simp [tick, hle]
  · intro hL
    simp only [GateState.isLocked] at hL
    subst hL
    simp [tick]
  · intro hu
    simp only [GateState.lockUntil] at hu
    subst hu
    cases l with
    | false => simp [tick]
    | true => simp [tick]
  · intro lu hu hlt
    simp only [GateState.lockUntil] at hu
    subst hu
    cases l with
    | false => simp [tick]
    | true => simp [tick, Nat.not_le.mpr hlt]

/-- Witness for C6: a lock expiring exactly at `now = 900000` is
cleared; an unlocked state and a still-running lock are untouched. -/
theorem gate_tick_clears_iff_witness :
    tick 900000 { attempts := 5, isLocked := true, lockUntil := some 900000 }
        { secretAttempts := some 5, secretLockUntil := some 900000 } =
      ({ attempts := 0, isLocked := false, lockUntil := none },
       { secretAttempts := none, secretLockUntil := none }) ∧
    tick 50 { attempts := 2, isLocked := false, lockUntil := none }
        { secretAttempts := some 2, secretLockUntil := none } =
      ({ attempts := 2, isLocked := false, lockUntil := none },
       { secretAttempts := some 2, secretLockUntil := none }) ∧
    tick 50 { attempts := 5, isLocked := true, lockUntil := some 900000 }
        { secretAttempts := some 5, secretLockUntil := some 900000 } =
      ({ attempts := 5, isLocked := true, lockUntil := some 900000 },
       { secretAttempts := some 5, secretLockUntil := some 900000 }) := by
  refine ⟨?_, ?_, ?_⟩
  · exact (gate_tick_clears_iff 900000
      { attempts := 5, isLocked := true, lockUntil := some 900000 }
      { secretAttempts := some 5, secretLockUntil := some 900000 }).1 900000 rfl rfl
      (Nat.le_refl 900000)
  · exact (gate_tick_clears_iff 50
      { attempts := 2, isLocked := false, lockUntil := none }
      { secretAttempts := some 2, secretLockUntil := none }).2.1 rfl
  · exact (gate_tick_clears_iff 50
      { attempts := 5, isLocked := true, lockUntil := some 900000 }
      { secretAttempts := some 5, secretLockUntil := some 900000 }).2.2.2 900000 rfl
      (by decide)

/-- C7: `handleNavigation` is a no-op (state unchanged, no timer) when
the target equals the current page; otherwise it immediately sets
`isTransitioning = true` leaving `currentPage` unchanged and schedules
a single 350 ms timer whose firing sets `currentPage` to the target and
`isTransitioning = false`. -/
theorem navigation_transition_spec (st : NavState) (page : String) :
    (page = st.currentPage → handleNavigation page st = (st, none))
    ∧ (page ≠ st.currentPage →
        handleNavigation page st =
          ({ st with isTransitioning := true }, some { delay := 350, target := page })
        ∧ fireNavTimer { delay := 350, target := page } { st with isTransitioning := true } =
            { st with currentPage := page, isTransitioning := false,
                      isMobileMenuOpen := false }) := by
  constructor
  · intro h
    unfold handleNavigation
    rw [if_pos h.symm]
  · intro h
    constructor
    · unfold handleNavigation
      rw [if_neg (fun he => h he.symm)]
    · rfl

/-- Witness for C7: the spec scenarios `navigate('about', home)` and
`navigate('home', home)`. -/
theorem navigation_transition_spec_witness :
    handleNavigation "about" nav0 =
      ({ currentPage := "home", isTransitioning := true, isMobileMenuOpen := false },
       some { delay := 350, target := "about" }) ∧
    fireNavTimer { delay := 350, target := "about" }
        { currentPage := "home", isTransitioning := true, isMobileMenuOpen := false } =
      { currentPage := "about", isTransitioning := false, isMobileMenuOpen := false } ∧
    handleNavigation "home" nav0 = (nav0, none) := by
  have h := (navigation_transition_spec nav0 "about").2 (by decide)
  exact ⟨h.1, h.2, (navigation_transition_spec nav0 "home").1 rfl⟩

/-- C8 counterexample: starting from the initial state, a
`handleNavigation` to `about` leaves `currentPage = home` with
`isTransitioning = true`; while the 350 ms timer is still pending, the
header's secret-garden button (gate locked) changes `currentPage` to
`secret-garden` synchronously with `isTransitioning` still `true` and
no new timer — so a page change does not go through the transition
sequence, refuting the claimed invariant on a reachable execution. -/
theorem page_change_during_transition_cex :
    (runNav [NavEvent.navClick "about"] { nav := nav0, pending := [] }).nav =
      { currentPage := "home", isTransitioning := true, isMobileMenuOpen := false } ∧
    (runNav [NavEvent.navClick "about", NavEvent.secretClick false]
        { nav := nav0, pending := [] }).nav =
      { currentPage := "secret-garden", isTransitioning := true, isMobileMenuOpen := false } ∧
    (runNav [NavEvent.navClick "about", NavEvent.secretClick false]
        { nav := nav0, pending := [] }).pending =
      [{ delay := 350, target := "about" }] := by
  decide

/-- C8 amended: page changes made through `handleNavigation` never touch
`currentPage` synchronously — only the timer's firing changes it, and
the firing simultaneously clears `isTransitioning`; but
`handleSecretUnlock` and the header's secret-garden click while the
gate is locked set `currentPage` directly and synchronously with no
timer, so `currentPage` can change while `isTransitioning` is true. -/
theorem navigation_direct_page_changes :
    (∀ (page : String) (st : NavState),
      (handleNavigation page st).1.currentPage = st.currentPage)
    ∧ (∀ (tm : NavTimer) (st : NavState),
        (fireNavTimer tm st).currentPage = tm.target ∧
        (fireNavTimer tm st).isTransitioning = false)
    ∧ (∀ st : NavState, headerSecretGardenClick false st =
        ({ st with currentPage := "secret-garden" }, none))
    ∧ (∀ st : NavState, (handleSecretUnlock st).1 =
        { st with currentPage := "secret-garden" }) := by
  refine ⟨?_, ?_, ?_, ?_⟩
  · intro page st
    unfold handleNavigation
    split <;> rfl
  · intro tm st
    exact ⟨rfl, rfl⟩
  · intro st
    unfold headerSecretGardenClick
    rw [if_neg (by decide)]
  · intro st
    rfl

/-- C9: the validator flags `title` exactly when it is blank after
trimming, flags `email` exactly when it is non-empty and fails the
source regex `/\S+@\S+\.\S+/` (the `local@domain.tld` shape), returns
the empty error mapping exactly when the form is valid, and behaves as
specified on the three concrete spec examples. -/
theorem validate_form_spec (title email : String) :
    ((validateForm title email).title = some "Please enter your dive suggestion" ↔
      jsTrim title = "")
    ∧ ((validateForm title email).email = some "Please enter a valid email address" ↔
        (email ≠ "" ∧ emailTest email = false))
    ∧ (validateForm title email = { title := none, email := none } ↔
        (jsTrim title ≠ "" ∧ (email = "" ∨ emailTest email = true)))
    ∧ validateForm "" "" = { title := some "Please enter your dive suggestion", email := none }
    ∧ validateForm "x" "bad" = { title := none, email := some "Please enter a valid email address" }
    ∧ validateForm "x" "a@b.co" = { title := none, email := none } := by
  refine ⟨?_, ?_, ?_, by decide, by decide, by decide⟩
  · by_cases h1 : jsTrim title = "" <;> simp [validateForm, h1]
  · cases hbe : emailTest email with
    | false =>
      by_cases he : email = "" <;> simp [validateForm, hbe, he]
    | true =>
      by_cases he : email = "" <;> simp [validateForm, hbe, he]
  · by_cases h1 : jsTrim title = "" <;> cases hbe : emailTest email <;>
      by_cases he : email = "" <;> simp [validateForm, h1, hbe, he]

/-- Witness for C9: the three concrete spec examples, through the main
theorem. -/
theorem validate_form_spec_witness :
    validateForm "" "" = { title := some "Please enter your dive suggestion", email := none } ∧
    validateForm "x" "bad" = { title := none, email := some "Please enter a valid email address" } ∧
    validateForm "x" "a@b.co" = { title := none, email := none } := by
  exact ⟨(validate_form_spec "" "").2.2.2.1,
         (validate_form_spec "x" "bad").2.2.2.2.1,
         (validate_form_spec "x" "a@b.co").2.2.2.2.2⟩

end DiveIn4e
